import Mathlib

/-!
Verification of the ConsusisShareable repository: the Savings Projector
(`src/app.py`, function `calculate_savings` and its helpers) and the
Comorbidity Sampler (`src/comorbidity_monte_carlo_sim.py`).

All floating-point arithmetic of the Python source is embedded as exact
rational arithmetic over `ℚ`.  Python dictionaries are embedded as
association lists (`List (String × ℚ)`) or as total functions on the
fixed condition set.  Division by zero is modelled as `ℚ` division
(`x / 0 = 0`) inside the Projector, and as an explicit `Option` in the
Sampler's prevalence computation, where the spec talks about a
division-by-zero error.
-/

/-- The fixed condition set of `comorbidity_costs` / `risk_reduction` in
`src/app.py`, in the dictionary iteration order of the source. -/
inductive Condition where
  | hypertension
  | diabetes
  | cardiovascularEvent
  | depression
deriving DecidableEq, Repr

/-- Iteration order of the `comorbidity_costs` dictionary (Python dicts
iterate in insertion order). -/
def conditionsList : List Condition :=
  [Condition.hypertension, Condition.diabetes,
   Condition.cardiovascularEvent, Condition.depression]

/-- `comorbidity_costs` from `src/app.py` lines 68-73. -/
def comorbidity_costs : Condition → ℚ
  | Condition.hypertension => 2000
  | Condition.diabetes => 12000
  | Condition.cardiovascularEvent => 30000
  | Condition.depression => 5000

/-- `risk_reduction` from `src/app.py` lines 75-80. -/
def risk_reduction : Condition → ℚ
  | Condition.hypertension => 40/100
  | Condition.diabetes => 25/100
  | Condition.cardiovascularEvent => 50/100
  | Condition.depression => 30/100

/-- `list(risk_reduction.values())` in dictionary order. -/
def risk_reduction_values : List ℚ := conditionsList.map risk_reduction

/-- `np.mean(list(risk_reduction.values()))` from `src/app.py` line 111:
the sum of the four risk-reduction values divided by their count. -/
def mean_risk_reduction : ℚ :=
  risk_reduction_values.sum / (risk_reduction_values.length : ℚ)

/-- The sidebar model parameters of `src/app.py` (lines 13-21), gathered
into one immutable record. -/
structure Params where
  population_size : ℚ
  osa_prevalence : ℚ
  current_diagnosis_rate : ℚ
  target_diagnosis_rate : ℚ
  treatment_adherence : ℚ
  cost_diagnosis : ℚ
  cost_treatment : ℚ
  discount_rate : ℚ
deriving DecidableEq, Repr

/-- One row of the `annual_data` list built in `calculate_savings`
(`src/app.py` lines 118-123): keys `Year`, `Cost Avoided`,
`Treatment Cost`, `Net Savings`. -/
structure AnnualRecord where
  year : ℕ
  cost_avoided : ℚ
  treatment_cost : ℚ
  net_savings : ℚ
deriving DecidableEq, Repr

/-- `discounted_value` from `src/app.py` lines 82-83:
`value / ((1 + rate) ** year)`. -/
def discounted_value (rate value : ℚ) (year : ℕ) : ℚ :=
  value / ((1 + rate) ^ year)

/-- `untreated_osa` from `src/app.py` line 86 (computed and held fixed
across the 20 years; feeds only the inert `baseline_cases`). -/
def untreated_osa (p : Params) : ℚ :=
  p.population_size * p.osa_prevalence * (1 - p.current_diagnosis_rate)

/-- `improved_treated_osa` from `src/app.py` line 87: the newly-treated
stratum `population * prevalence * (target - current) * adherence`. -/
def improved_treated_osa (p : Params) : ℚ :=
  p.population_size * p.osa_prevalence *
    (p.target_diagnosis_rate - p.current_diagnosis_rate) * p.treatment_adherence

/-- Substring containment on character lists: does the pattern occur as a
contiguous substring?  Models Python's `pat in s` on strings. -/
def listIsPrefixChars : List Char → List Char → Bool
  | [], _ => true
  | _ :: _, [] => false
  | a :: as, b :: bs => a == b && listIsPrefixChars as bs

/-- Helper for `strContains`: the pattern occurs in some suffix. -/
def listContainsChars (pat : List Char) : List Char → Bool
  | [] => listIsPrefixChars pat []
  | c :: cs => listIsPrefixChars pat (c :: cs) || listContainsChars pat cs

/-- Python's `pat in s` substring test on strings. -/
def strContains (s pat : String) : Bool :=
  listContainsChars pat.toList s.toList

/-- The `cost_estimate` built for one joint-probability key in
`src/app.py` lines 104-110: sum the cost-table entries of each condition
name textually present in the label. -/
def jointCostEstimate (joint_key : String) : ℚ :=
  (if strContains joint_key "Hypertension" then comorbidity_costs Condition.hypertension else 0)
  + (if strContains joint_key "Diabetes" then comorbidity_costs Condition.diabetes else 0)
  + (if strContains joint_key "Cardio" then comorbidity_costs Condition.cardiovascularEvent else 0)

/-- The discounted contribution of one single condition to a year's
`yearly_savings` (`src/app.py` lines 95-100):
`discounted_value(improved * prevalence * risk_reduction * cost, year)`. -/
def singleContribution (p : Params) (profile : Condition → ℚ)
    (c : Condition) (year : ℕ) : ℚ :=
  discounted_value p.discount_rate
    (improved_treated_osa p * profile c * risk_reduction c * comorbidity_costs c) year

/-- The discounted contribution of one joint-probability entry to a
year's `yearly_savings` (`src/app.py` lines 103-112):
`discounted_value(improved * joint_val * cost_estimate * mean_rr, year)`. -/
def jointContribution (p : Params) (kv : String × ℚ) (year : ℕ) : ℚ :=
  discounted_value p.discount_rate
    (improved_treated_osa p * kv.2 * jointCostEstimate kv.1 * mean_risk_reduction) year

/-- The `yearly_savings` accumulator of one loop iteration of
`calculate_savings` (`src/app.py` lines 93-112): start at 0, add the four
single-condition contributions, then the joint-probability
contributions, in source order. -/
def yearly_savings (p : Params) (profile : Condition → ℚ)
    (joint : List (String × ℚ)) (year : ℕ) : ℚ :=
  joint.foldl (fun acc kv => acc + jointContribution p kv year)
    (conditionsList.foldl (fun acc c => acc + singleContribution p profile c year) 0)

/-- The undiscounted `treatment_cost` of `src/app.py` line 114:
`improved_treated_osa * (cost_treatment + cost_diagnosis if year == 1 else cost_treatment)`. -/
def treatment_cost_at (p : Params) (year : ℕ) : ℚ :=
  improved_treated_osa p *
    (if year = 1 then p.cost_treatment + p.cost_diagnosis else p.cost_treatment)

/-- `net_savings` of one loop iteration (`src/app.py` line 115). -/
def net_savings_at (p : Params) (profile : Condition → ℚ)
    (joint : List (String × ℚ)) (year : ℕ) : ℚ :=
  yearly_savings p profile joint year
    - discounted_value p.discount_rate (treatment_cost_at p year) year

/-- The `annual_data` row appended for one year
(`src/app.py` lines 118-123). -/
def annualRecordAt (p : Params) (profile : Condition → ℚ)
    (joint : List (String × ℚ)) (year : ℕ) : AnnualRecord :=
  ⟨year, yearly_savings p profile joint year,
   discounted_value p.discount_rate (treatment_cost_at p year) year,
   net_savings_at p profile joint year⟩

/-- `years = np.arange(1, 21)` from `src/app.py` line 23. -/
def yearsList : List ℕ := (List.range 20).map (· + 1)

/-- `calculate_savings` from `src/app.py` lines 85-126: the running
`total_savings` accumulation and the 20-row `annual_data` series. -/
def calculate_savings (p : Params) (profile : Condition → ℚ)
    (joint : List (String × ℚ)) : ℚ × List AnnualRecord :=
  (yearsList.foldl (fun acc year => acc + net_savings_at p profile joint year) 0,
   yearsList.map (annualRecordAt p profile joint))

/-- Python's `dict.get(key, default)` on an association list. -/
def dictGet (d : List (String × ℚ)) (k : String) (dflt : ℚ) : ℚ :=
  match d.lookup k with
  | some v => v
  | none => dflt

/-- The single-condition prevalence mapping built from an uploaded
Monte Carlo JSON record (`src/app.py` lines 51-56): three keys read with
`.get(key, 0)`, Depression hard-coded to `0.25`. -/
def comorbidity_prevalence_mc (raw : List (String × ℚ)) : Condition → ℚ
  | Condition.hypertension => dictGet raw "hypertension" 0
  | Condition.diabetes => dictGet raw "diabetes" 0
  | Condition.cardiovascularEvent => dictGet raw "cardio" 0
  | Condition.depression => 25/100

/-- The joint-probability mapping built from an uploaded Monte Carlo
JSON record (`src/app.py` lines 58-63): four keys read with
`.get(key, 0)`. -/
def joint_prevalence_mc (raw : List (String × ℚ)) : List (String × ℚ) :=
  [("Hypertension + Diabetes", dictGet raw "hypertension_diabetes" 0),
   ("Hypertension + Cardio", dictGet raw "hypertension_cardio" 0),
   ("Diabetes + Cardio", dictGet raw "diabetes_cardio" 0),
   ("All Three", dictGet raw "hypertension_diabetes_cardio" 0)]

/-- The `costs` dictionary of `src/comorbidity_monte_carlo_sim.py`
lines 20-24. -/
def sampler_costs_list : List (String × ℚ) :=
  [("hypertension", 2000), ("diabetes", 12000), ("cardio", 30000)]

/-- `estimate_cost` from `src/comorbidity_monte_carlo_sim.py`
lines 52-56: split the cluster label on underscores and sum
`costs.get(k, 0)` over the parts; the `none` label costs 0. -/
def estimate_cost (cluster : String) : ℚ :=
  if cluster = "none" then 0
  else ((cluster.splitOn "_").map (fun k => dictGet sampler_costs_list k 0)).sum

/-- `Counter(clusters)` from `src/comorbidity_monte_carlo_sim.py`
line 49: distinct labels in first-occurrence order, each with its
occurrence count. -/
def countsOf (clusters : List String) : List (String × ℕ) :=
  clusters.eraseDups.map (fun k => (k, clusters.count k))

/-- Division modelled as fallible, so that a Python `ZeroDivisionError`
in the Sampler's prevalence computation shows up as `none`. -/
def qdivOpt (a b : ℚ) : Option ℚ :=
  if b = 0 then none else some (a / b)

/-- The Sampler's output artifact (`src/comorbidity_monte_carlo_sim.py`
lines 64-69). -/
structure SimulationOutputRecord where
  population : ℕ
  joint_prevalence : List (String × ℚ)
  average_costs : List (String × ℚ)
  total_cost : ℚ
deriving DecidableEq, Repr

/-- The aggregate phase of `src/comorbidity_monte_carlo_sim.py`
lines 48-69, with the per-patient random draws abstracted into the
given list of cluster labels (one per simulated patient, so
`n_patients = clusters.length`): tally labels, compute per-cluster cost,
divide counts by the population (fallibly), and emit the output record. -/
def runSampler (clusters : List String) : Option SimulationOutputRecord :=
  match (countsOf clusters).mapM
      (fun kv => (qdivOpt (kv.2 : ℚ) (clusters.length : ℚ)).map (fun q => (kv.1, q))) with
  | none => none
  | some prevalence =>
    some ⟨clusters.length, prevalence,
      (countsOf clusters).map (fun kv => (kv.1, estimate_cost kv.1)),
      ((countsOf clusters).map (fun kv => (kv.2 : ℚ) * estimate_cost kv.1)).sum⟩

/-- Replace the `treatment_adherence` field, holding every other
parameter fixed. -/
def withAdherence (p : Params) (a : ℚ) : Params :=
  ⟨p.population_size, p.osa_prevalence, p.current_diagnosis_rate,
   p.target_diagnosis_rate, a, p.cost_diagnosis, p.cost_treatment, p.discount_rate⟩

/-- The adherence-independent per-year savings coefficient:
`yearly_savings = improved_treated_osa * savings_coeff` (proved below). -/
def savings_coeff (rate : ℚ) (profile : Condition → ℚ)
    (joint : List (String × ℚ)) (year : ℕ) : ℚ :=
  (conditionsList.map
    (fun c => profile c * risk_reduction c * comorbidity_costs c / (1 + rate) ^ year)).sum
  + (joint.map
    (fun kv => kv.2 * jointCostEstimate kv.1 * mean_risk_reduction / (1 + rate) ^ year)).sum

/-- The spec's worked example parameters (spec §8): population 100000,
prevalence 0.25, current rate 0.20, target 0.50, adherence 0.60,
diagnosis cost 1000, treatment cost 1500, discount rate 0.03. -/
def pEx : Params := ⟨100000, 25/100, 20/100, 50/100, 60/100, 1000, 1500, 3/100⟩

/-- The spec's worked example profile: Hypertension 0.30 only. -/
def profEx : Condition → ℚ
  | Condition.hypertension => 30/100
  | _ => 0

/-- All-zero comorbidity profile. -/
def prof0 : Condition → ℚ := fun _ => 0

/-- Example parameters with adherence 0 (counterexample input). -/
def pCexA : Params := ⟨100000, 25/100, 20/100, 50/100, 0, 1000, 1500, 0⟩

/-- Example parameters with target rate below current rate
(counterexample input). -/
def pCexC : Params := ⟨100000, 25/100, 50/100, 20/100, 0, 1000, 1500, 0⟩

/-- Example parameters with target rate equal to current rate. -/
def pC6 : Params := ⟨100000, 25/100, 20/100, 20/100, 60/100, 1000, 1500, 0⟩

lemma allThree_no_hypertension : strContains "All Three" "Hypertension" = false := by decide

lemma allThree_no_diabetes : strContains "All Three" "Diabetes" = false := by decide

lemma allThree_no_cardio : strContains "All Three" "Cardio" = false := by decide

lemma yearsList_eq :
    yearsList = [1,2,3,4,5,6,7,8,9,10,11,12,13,14,15,16,17,18,19,20] := by decide

lemma foldl_add_eq_sum {α : Type} (f : α → ℚ) (l : List α) (init : ℚ) :
    l.foldl (fun acc x => acc + f x) init = init + (l.map f).sum := by
  induction l generalizing init with
  | nil => simp
  | cons a as ih => simp [List.foldl_cons, ih]; ring

lemma yearly_savings_eq_sum (p : Params) (profile : Condition → ℚ)
    (joint : List (String × ℚ)) (year : ℕ) :
    yearly_savings p profile joint year
      = (conditionsList.map (fun c => singleContribution p profile c year)).sum
        + (joint.map (fun kv => jointContribution p kv year)).sum := by
  simp [yearly_savings, foldl_add_eq_sum]

lemma yearsList_getD {α : Type} (f : ℕ → α) (d : α) (t : ℕ)
    (h1 : 1 ≤ t) (h2 : t ≤ 20) :
    (yearsList.map f).getD (t - 1) d = f t := by
  interval_cases t <;> rfl

lemma calc_series_getD (p : Params) (profile : Condition → ℚ)
    (joint : List (String × ℚ)) (t : ℕ) (h1 : 1 ≤ t) (h2 : t ≤ 20) :
    (calculate_savings p profile joint).2.getD (t - 1) ⟨0, 0, 0, 0⟩
      = annualRecordAt p profile joint t :=
  yearsList_getD (annualRecordAt p profile joint) ⟨0, 0, 0, 0⟩ t h1 h2

/-- C7: with discount rate 0, `discounted_value` is the identity on the
value, for every value and every year. -/
theorem discounted_value_rate_zero (v : ℚ) (year : ℕ) :
    discounted_value 0 v year = v := by
  simp [discounted_value]

/-- C1: the total NPV returned by `calculate_savings` equals the sum of
the 20 per-year `net_savings` values of the returned series, for every
input: the running `total_savings` accumulation introduces no drift
relative to summing the series. -/
theorem npv_total_eq_sum_net_savings (p : Params) (profile : Condition → ℚ)
    (joint : List (String × ℚ)) :
    (calculate_savings p profile joint).1
      = ((calculate_savings p profile joint).2.map (fun r => r.net_savings)).sum := by
  simp [calculate_savings, foldl_add_eq_sum, List.map_map]
  rfl

/-- C2: for every year `t` in 1..20, the `Cost Avoided` entry of year
`t` equals the four single-condition contributions plus, for every
joint-label entry, the discounted value of
`newly_treated * joint_fraction * combined_cost * mean(risk reductions)`,
where the combined cost (`jointCostEstimate`) sums the cost-table
entries of each condition name textually contained in the label. -/
theorem joint_adjustment_per_year (p : Params) (profile : Condition → ℚ)
    (joint : List (String × ℚ)) (t : ℕ) (h1 : 1 ≤ t) (h2 : t ≤ 20) :
    ((calculate_savings p profile joint).2.getD (t - 1) ⟨0, 0, 0, 0⟩).cost_avoided
      = (conditionsList.map (fun c => singleContribution p profile c t)).sum
        + (joint.map (fun kv =>
            discounted_value p.discount_rate
              (improved_treated_osa p * kv.2 * jointCostEstimate kv.1 * mean_risk_reduction)
              t)).sum := by
  rw [calc_series_getD p profile joint t h1 h2]
  exact yearly_savings_eq_sum p profile joint t

/-- C2 witness: the per-year decomposition instantiated at the example
parameters with one joint entry in year 1. -/
theorem joint_adjustment_per_year_witness :
    ((calculate_savings pEx profEx [("Hypertension + Diabetes", 12/100)]).2.getD 0
        ⟨0, 0, 0, 0⟩).cost_avoided
      = (conditionsList.map (fun c => singleContribution pEx profEx c 1)).sum
        + ([("Hypertension + Diabetes", (12:ℚ)/100)].map (fun kv =>
            discounted_value pEx.discount_rate
              (improved_treated_osa pEx * kv.2 * jointCostEstimate kv.1 * mean_risk_reduction)
              1)).sum :=
  joint_adjustment_per_year pEx profEx [("Hypertension + Diabetes", 12/100)] 1
    (by decide) (by decide)

/-- C10: a joint entry labelled `"All Three"` contributes exactly 0 to
every year's cost avoided, whatever its joint fraction: none of the
substrings `"Hypertension"`, `"Diabetes"`, `"Cardio"` occurs in the
label, so its combined cost estimate is 0; inserting such an entry
anywhere in the joint profile leaves every year's cost avoided
unchanged. -/
theorem all_three_label_zero_contribution (p : Params) (profile : Condition → ℚ)
    (joint1 joint2 : List (String × ℚ)) (v : ℚ) (t : ℕ) :
    jointContribution p ("All Three", v) t = 0
    ∧ yearly_savings p profile (joint1 ++ ("All Three", v) :: joint2) t
      = yearly_savings p profile (joint1 ++ joint2) t := by
  have hcost : jointCostEstimate "All Three" = 0 := by
    simp [jointCostEstimate, allThree_no_hypertension, allThree_no_diabetes,
      allThree_no_cardio]
  have hzero : jointContribution p ("All Three", v) t = 0 := by
    simp [jointContribution, hcost, discounted_value]
  refine ⟨hzero, ?_⟩
  rw [yearly_savings_eq_sum, yearly_savings_eq_sum]
  congr 1
  simp [hzero]

/-- C3: for every year `t` in 1..20, the recorded `Treatment Cost` is
the discount of `newly_treated * annual_treatment_cost` plus, in year 1
only, the one-time aggregate diagnosis cost
`newly_treated * diagnosis_cost` (the spec's year-1 regression fixture
`100000*0.25*0.30*0.60*(1500+1000)/1.03` is checked in the witness). -/
theorem treatment_cost_formula (p : Params) (profile : Condition → ℚ)
    (joint : List (String × ℚ)) (t : ℕ) (h1 : 1 ≤ t) (h2 : t ≤ 20) :
    ((calculate_savings p profile joint).2.getD (t - 1) ⟨0, 0, 0, 0⟩).treatment_cost
      = discounted_value p.discount_rate
          (improved_treated_osa p * p.cost_treatment
            + (if t = 1 then improved_treated_osa p * p.cost_diagnosis else 0)) t := by
  rw [calc_series_getD p profile joint t h1 h2]
  show discounted_value p.discount_rate (treatment_cost_at p t) t = _
  unfold treatment_cost_at discounted_value
  by_cases h : t = 1
  · simp [h]
    ring
  · simp [h]

/-- C3 witness: the formula at the spec's example parameters in year 1,
together with the regression fixture value
`100000*0.25*0.30*0.60*(1500+1000)/1.03 = 1125000000/103`. -/
theorem treatment_cost_formula_witness :
    ((calculate_savings pEx profEx []).2.getD 0 ⟨0, 0, 0, 0⟩).treatment_cost
      = discounted_value pEx.discount_rate
          (improved_treated_osa pEx * pEx.cost_treatment
            + (if 1 = 1 then improved_treated_osa pEx * pEx.cost_diagnosis else 0)) 1
    ∧ ((calculate_savings pEx profEx []).2.getD 0 ⟨0, 0, 0, 0⟩).treatment_cost
      = 1125000000/103 := by
  refine ⟨treatment_cost_formula pEx profEx [] 1 (by decide) (by decide), ?_⟩
  norm_num [calculate_savings, yearsList, List.range, List.range.loop, annualRecordAt,
    treatment_cost_at, discounted_value, improved_treated_osa, pEx]

/-- C6: whenever the target diagnosis rate equals the current diagnosis
rate, `improved_treated_osa` (the newly-treated stratum) is 0 and every
one of the 20 annual records has cost avoided exactly 0. -/
theorem equal_rates_zero_cost_avoided (p : Params) (profile : Condition → ℚ)
    (joint : List (String × ℚ))
    (h : p.target_diagnosis_rate = p.current_diagnosis_rate) :
    improved_treated_osa p = 0
    ∧ ∀ r ∈ (calculate_savings p profile joint).2, r.cost_avoided = 0 := by
  have himp : improved_treated_osa p = 0 := by
    unfold improved_treated_osa
    rw [h]
    ring
  refine ⟨himp, ?_⟩
  intro r hr
  simp only [calculate_savings, List.mem_map] at hr
  obtain ⟨y, hy, rfl⟩ := hr
  show yearly_savings p profile joint y = 0
  rw [yearly_savings_eq_sum]
  have hjoint : (joint.map (fun kv => jointContribution p kv y)).sum = 0 := by
    apply List.sum_eq_zero
    intro x hx
    obtain ⟨kv, hkv, rfl⟩ := List.mem_map.mp hx
    simp [jointContribution, discounted_value, himp]
  rw [hjoint]
  simp [conditionsList, singleContribution, discounted_value, himp]

/-- C6 witness: at example parameters with target rate = current rate,
the newly-treated stratum is 0 and the year-1 record's cost avoided
is 0. -/
theorem equal_rates_zero_cost_avoided_witness :
    improved_treated_osa pC6 = 0
    ∧ (annualRecordAt pC6 profEx [] 1).cost_avoided = 0 :=
  ⟨(equal_rates_zero_cost_avoided pC6 profEx [] rfl).1,
   (equal_rates_zero_cost_avoided pC6 profEx [] rfl).2 _
     (List.mem_map.mpr ⟨1, by decide, rfl⟩)⟩

lemma risk_reduction_nonneg (c : Condition) : 0 ≤ risk_reduction c := by
  cases c <;> norm_num [risk_reduction]

lemma comorbidity_costs_nonneg (c : Condition) : 0 ≤ comorbidity_costs c := by
  cases c <;> norm_num [comorbidity_costs]

lemma jointCostEstimate_nonneg (k : String) : 0 ≤ jointCostEstimate k := by
  unfold jointCostEstimate
  split_ifs <;> norm_num [comorbidity_costs]

lemma mean_risk_reduction_nonneg : 0 ≤ mean_risk_reduction := by
  norm_num [mean_risk_reduction, risk_reduction_values, conditionsList, risk_reduction]

lemma yearly_savings_linear (p : Params) (profile : Condition → ℚ)
    (joint : List (String × ℚ)) (year : ℕ) :
    yearly_savings p profile joint year
      = improved_treated_osa p * savings_coeff p.discount_rate profile joint year := by
  rw [yearly_savings_eq_sum]
  unfold savings_coeff
  rw [mul_add]
  congr 1
  · simp only [conditionsList, List.map_cons, List.map_nil, List.sum_cons, List.sum_nil]
    unfold singleContribution discounted_value
    ring
  · induction joint with
    | nil => simp
    | cons kv rest ih =>
      simp only [List.map_cons, List.sum_cons, mul_add, ih]
      congr 1
      unfold jointContribution discounted_value
      ring

lemma savings_coeff_nonneg (rate : ℚ) (profile : Condition → ℚ)
    (joint : List (String × ℚ)) (year : ℕ)
    (hprof : ∀ c, 0 ≤ profile c) (hjoint : ∀ kv ∈ joint, 0 ≤ kv.2)
    (hrate : 0 ≤ rate) :
    0 ≤ savings_coeff rate profile joint year := by
  have hD : (0:ℚ) < (1 + rate) ^ year := pow_pos (by linarith) year
  unfold savings_coeff
  apply add_nonneg
  · apply List.sum_nonneg
    intro x hx
    obtain ⟨c, hc, rfl⟩ := List.mem_map.mp hx
    exact div_nonneg
      (mul_nonneg (mul_nonneg (hprof c) (risk_reduction_nonneg c))
        (comorbidity_costs_nonneg c)) hD.le
  · apply List.sum_nonneg
    intro x hx
    obtain ⟨kv, hkv, rfl⟩ := List.mem_map.mp hx
    exact div_nonneg
      (mul_nonneg (mul_nonneg (hjoint kv hkv) (jointCostEstimate_nonneg kv.1))
        mean_risk_reduction_nonneg) hD.le

/-- C4 counterexample: strict monotonicity in `treatment_adherence`
fails.  With an all-zero comorbidity profile and empty joint profile
(`pCexA`), raising adherence from 0 to 1 leaves year-1 cost avoided
unchanged (both 0), so the increase is not strict; moreover with the
target rate below the current rate (`pCexC`), raising adherence from 0
to 1 strictly decreases year-1 cost avoided, so without sign
restrictions not even non-strict monotone increase holds. -/
theorem adherence_strict_monotonicity_cex :
    ((0:ℚ) < 1)
    ∧ ((calculate_savings (withAdherence pCexA 1) prof0 []).2.getD 0
          ⟨0, 0, 0, 0⟩).cost_avoided
        = ((calculate_savings (withAdherence pCexA 0) prof0 []).2.getD 0
          ⟨0, 0, 0, 0⟩).cost_avoided
    ∧ ((calculate_savings (withAdherence pCexC 1) profEx []).2.getD 0
          ⟨0, 0, 0, 0⟩).cost_avoided
        < ((calculate_savings (withAdherence pCexC 0) profEx []).2.getD 0
          ⟨0, 0, 0, 0⟩).cost_avoided := by
  refine ⟨by norm_num, ?_, ?_⟩ <;>
    norm_num [calculate_savings, yearsList, List.range, List.range.loop, annualRecordAt,
      yearly_savings, conditionsList, singleContribution, jointContribution,
      discounted_value, improved_treated_osa, withAdherence, pCexA, pCexC, prof0, profEx,
      risk_reduction, comorbidity_costs]

/-- C4 (amended): with every input held fixed and nonnegative in the
normal sense (population, prevalence, profile and joint fractions ≥ 0,
target rate ≥ current rate, discount rate ≥ 0), raising
`treatment_adherence` weakly increases the cost avoided of every year
`t` in 1..20 (non-strict: the increase can be an equality, e.g. with an
all-zero profile). -/
theorem adherence_monotone_cost_avoided (p : Params) (a1 a2 : ℚ)
    (profile : Condition → ℚ) (joint : List (String × ℚ)) (t : ℕ)
    (hpop : 0 ≤ p.population_size) (hprev : 0 ≤ p.osa_prevalence)
    (hgap : p.current_diagnosis_rate ≤ p.target_diagnosis_rate)
    (hprof : ∀ c, 0 ≤ profile c) (hjoint : ∀ kv ∈ joint, 0 ≤ kv.2)
    (hrate : 0 ≤ p.discount_rate) (ha : a1 ≤ a2)
    (h1 : 1 ≤ t) (h2 : t ≤ 20) :
    ((calculate_savings (withAdherence p a1) profile joint).2.getD (t - 1)
        ⟨0, 0, 0, 0⟩).cost_avoided
      ≤ ((calculate_savings (withAdherence p a2) profile joint).2.getD (t - 1)
        ⟨0, 0, 0, 0⟩).cost_avoided := by
  rw [calc_series_getD _ _ _ t h1 h2, calc_series_getD _ _ _ t h1 h2]
  show yearly_savings (withAdherence p a1) profile joint t
    ≤ yearly_savings (withAdherence p a2) profile joint t
  rw [yearly_savings_linear, yearly_savings_linear]
  have hdr : ∀ a, (withAdherence p a).discount_rate = p.discount_rate := fun a => rfl
  rw [hdr, hdr]
  have hcoeff : 0 ≤ savings_coeff p.discount_rate profile joint t :=
    savings_coeff_nonneg p.discount_rate profile joint t hprof hjoint hrate
  have hbase : 0 ≤ p.population_size * p.osa_prevalence *
      (p.target_diagnosis_rate - p.current_diagnosis_rate) := by
    apply mul_nonneg (mul_nonneg hpop hprev)
    linarith
  have himp : improved_treated_osa (withAdherence p a1)
      ≤ improved_treated_osa (withAdherence p a2) := by
    unfold improved_treated_osa withAdherence
    exact mul_le_mul_of_nonneg_left ha hbase
  exact mul_le_mul_of_nonneg_right himp hcoeff

/-- C4 witness: the amended monotonicity at the example parameters,
adherence 0.50 vs 0.60, year 1, with one joint entry. -/
theorem adherence_monotone_cost_avoided_witness :
    ((calculate_savings (withAdherence pEx (50/100)) profEx
        [("Hypertension + Diabetes", 12/100)]).2.getD 0 ⟨0, 0, 0, 0⟩).cost_avoided
      ≤ ((calculate_savings (withAdherence pEx (60/100)) profEx
        [("Hypertension + Diabetes", 12/100)]).2.getD 0 ⟨0, 0, 0, 0⟩).cost_avoided :=
  adherence_monotone_cost_avoided pEx (50/100) (60/100) profEx
    [("Hypertension + Diabetes", 12/100)] 1
    (by norm_num [pEx]) (by norm_num [pEx]) (by norm_num [pEx])
    (fun c => by cases c <;> norm_num [profEx])
    (by intro kv hkv; rw [List.mem_singleton] at hkv; subst hkv; norm_num)
    (by norm_num [pEx]) (by norm_num) (by norm_num) (by norm_num)

/-- C5 counterexample: at the spec's example input (population 100000,
prevalence 0.25, current 0.20, target 0.50, adherence 0.60, discount
0.03, profile Hypertension 0.30 only, no joint profile), the year-1
cost avoided is NOT `100000*0.25*0.30*0.60 * 0.30 * 0.40 / 1.03`
(which is about 524.27), and is not 1572.82 either: the claim's formula
omits the Hypertension cost-table factor 2000. -/
theorem hypertension_example_cex :
    ((calculate_savings pEx profEx []).2.getD 0 ⟨0, 0, 0, 0⟩).cost_avoided
      ≠ 100000 * (25/100) * (30/100) * (60/100) * (30/100) * (40/100) / (1 + 3/100)
    ∧ ((calculate_savings pEx profEx []).2.getD 0 ⟨0, 0, 0, 0⟩).cost_avoided
      ≠ 157282/100 := by
  norm_num [calculate_savings, yearsList, List.range, List.range.loop, annualRecordAt,
    yearly_savings, conditionsList, singleContribution, discounted_value,
    improved_treated_osa, pEx, profEx, risk_reduction, comorbidity_costs]

/-- C5 (amended): at the spec's example input, the year-1 cost avoided
from Hypertension alone equals
`100000*0.25*0.30*0.60 * 0.30 * 0.40 * 2000 / 1.03`
(= 108000000/103 ≈ 1048543.69): the claim's formula with the
Hypertension cost-table entry 2000 restored. -/
theorem hypertension_example_amended :
    ((calculate_savings pEx profEx []).2.getD 0 ⟨0, 0, 0, 0⟩).cost_avoided
      = 100000 * (25/100) * (30/100) * (60/100) * (30/100) * (40/100) * 2000
          / (1 + 3/100) := by
  norm_num [calculate_savings, yearsList, List.range, List.range.loop, annualRecordAt,
    yearly_savings, conditionsList, singleContribution, discounted_value,
    improved_treated_osa, pEx, profEx, risk_reduction, comorbidity_costs]

/-- C8: when the Projector consumes a Sampler output record, Depression
is always set to the fixed prevalence 0.25 whatever the record holds,
and each of the seven keys `hypertension`, `diabetes`, `cardio`,
`hypertension_diabetes`, `hypertension_cardio`, `diabetes_cardio`,
`hypertension_diabetes_cardio` that is missing from the record's
`joint_prevalence` mapping defaults to prevalence 0. -/
theorem mc_upload_defaults (raw : List (String × ℚ)) :
    comorbidity_prevalence_mc raw Condition.depression = 25/100
    ∧ (raw.lookup "hypertension" = none →
        comorbidity_prevalence_mc raw Condition.hypertension = 0)
    ∧ (raw.lookup "diabetes" = none →
        comorbidity_prevalence_mc raw Condition.diabetes = 0)
    ∧ (raw.lookup "cardio" = none →
        comorbidity_prevalence_mc raw Condition.cardiovascularEvent = 0)
    ∧ (raw.lookup "hypertension_diabetes" = none →
        (joint_prevalence_mc raw).lookup "Hypertension + Diabetes" = some 0)
    ∧ (raw.lookup "hypertension_cardio" = none →
        (joint_prevalence_mc raw).lookup "Hypertension + Cardio" = some 0)
    ∧ (raw.lookup "diabetes_cardio" = none →
        (joint_prevalence_mc raw).lookup "Diabetes + Cardio" = some 0)
    ∧ (raw.lookup "hypertension_diabetes_cardio" = none →
        (joint_prevalence_mc raw).lookup "All Three" = some 0) := by
  refine ⟨rfl, ?_, ?_, ?_, ?_, ?_, ?_, ?_⟩ <;> intro h <;>
    simp [comorbidity_prevalence_mc, joint_prevalence_mc, dictGet, h, List.lookup]

/-- C8 witness: the defaults instantiated at an empty uploaded
`joint_prevalence` mapping, where every key is missing. -/
theorem mc_upload_defaults_witness :
    comorbidity_prevalence_mc [] Condition.depression = 25/100
    ∧ comorbidity_prevalence_mc [] Condition.hypertension = 0
    ∧ comorbidity_prevalence_mc [] Condition.diabetes = 0
    ∧ comorbidity_prevalence_mc [] Condition.cardiovascularEvent = 0
    ∧ (joint_prevalence_mc []).lookup "Hypertension + Diabetes" = some 0
    ∧ (joint_prevalence_mc []).lookup "Hypertension + Cardio" = some 0
    ∧ (joint_prevalence_mc []).lookup "Diabetes + Cardio" = some 0
    ∧ (joint_prevalence_mc []).lookup "All Three" = some 0 :=
  ⟨(mc_upload_defaults []).1, (mc_upload_defaults []).2.1 rfl,
   (mc_upload_defaults []).2.2.1 rfl, (mc_upload_defaults []).2.2.2.1 rfl,
   (mc_upload_defaults []).2.2.2.2.1 rfl, (mc_upload_defaults []).2.2.2.2.2.1 rfl,
   (mc_upload_defaults []).2.2.2.2.2.2.1 rfl, (mc_upload_defaults []).2.2.2.2.2.2.2 rfl⟩

/-- C9: a Sampler run over zero patients succeeds (the prevalence
computation iterates over an empty tally, so it never divides and the
`Option`-modelled division-by-zero cannot fire), and emits the record
with population 0, an empty prevalence mapping (so every label read
back with the consumer's `.get(key, 0)` convention is 0) and total
cost 0. -/
theorem sampler_zero_population :
    runSampler [] = some ⟨0, [], [], 0⟩
    ∧ ∀ k : String,
        dictGet (⟨0, [], [], 0⟩ : SimulationOutputRecord).joint_prevalence k 0 = 0 :=
  ⟨rfl, fun _ => rfl⟩
